import Mathlib

/-!
Verification development for the `teii` finance client library
(`teii/finance/finance.py` and `teii/finance/timeseries.py`).

The Python code is shallowly embedded: every pandas data frame is a list of
typed rows, every fallible operation returns `Except PyErr`, and the Python
exception classes become constructors of `PyErr`.  Decimal values carried by
the upstream JSON (price strings such as "107.41") are represented exactly by
`Dec`, a mantissa/exponent pair denoting `man / 10 ^ exp`; this avoids any
floating-point concern while keeping all operations used by the pipeline
(parsing, subtraction, accumulation, comparison, truncation) exact and
kernel-computable.
-/

/-- Python exceptions that can escape the embedded functions.  The five
`financeClient*` constructors are the classes defined by the library
(`teii.finance`); the remaining constructors are built-in Python exceptions
that the library lets propagate. -/
inductive PyErr where
  | financeClientInvalidAPIKey (msg : String)
  | financeClientAPIError (msg : String)
  | financeClientInvalidData (msg : String)
  | financeClientParamError (msg : String)
  | financeClientIOError (msg : String)
  | keyError (msg : String)
  | valueError (msg : String)
  | typeError (msg : String)
  | nameError
  | indexError
deriving DecidableEq, Repr

/-- True exactly on the `FinanceClientAPIError` constructor. -/
def PyErr.isAPIError : PyErr → Bool
  | .financeClientAPIError _ => true
  | _ => false

/-- True exactly on the `FinanceClientInvalidData` constructor. -/
def PyErr.isInvalidData : PyErr → Bool
  | .financeClientInvalidData _ => true
  | _ => false

/-- True exactly on the `FinanceClientParamError` constructor. -/
def PyErr.isParamError : PyErr → Bool
  | .financeClientParamError _ => true
  | _ => false

/-- Exact decimal number `man / 10 ^ exp`.  This represents the values the
pipeline obtains by parsing decimal strings ("255.8" becomes mantissa 2558,
exponent 1); subtraction, addition and comparison are computed by
cross-multiplying with powers of ten, so no normalisation (and no gcd) is
ever needed and every operation reduces in the kernel. -/
structure Dec where
  man : Int
  exp : Nat
deriving DecidableEq, Repr

/-- Value-level order on `Dec`: `a ≤ b` as rational numbers. -/
def Dec.le (a b : Dec) : Prop := a.man * 10 ^ b.exp ≤ b.man * 10 ^ a.exp

/-- Value-level strict order on `Dec`. -/
def Dec.lt (a b : Dec) : Prop := a.man * 10 ^ b.exp < b.man * 10 ^ a.exp

/-- Value-level equality on `Dec` (1.50 equals 1.5). -/
def Dec.veq (a b : Dec) : Prop := a.man * 10 ^ b.exp = b.man * 10 ^ a.exp

instance : DecidableRel Dec.le := fun a b =>
  inferInstanceAs (Decidable (a.man * 10 ^ b.exp ≤ b.man * 10 ^ a.exp))

instance : DecidableRel Dec.lt := fun a b =>
  inferInstanceAs (Decidable (a.man * 10 ^ b.exp < b.man * 10 ^ a.exp))

instance : DecidableRel Dec.veq := fun a b =>
  inferInstanceAs (Decidable (a.man * 10 ^ b.exp = b.man * 10 ^ a.exp))

/-- Exact subtraction of decimals. -/
def Dec.sub (a b : Dec) : Dec :=
  ⟨a.man * 10 ^ b.exp - b.man * 10 ^ a.exp, a.exp + b.exp⟩

/-- Exact addition of decimals. -/
def Dec.add (a b : Dec) : Dec :=
  ⟨a.man * 10 ^ b.exp + b.man * 10 ^ a.exp, a.exp + b.exp⟩

/-- Truncation toward zero, the conversion numpy applies when a float column
is cast to an integer dtype. -/
def Dec.trunc (a : Dec) : Int := Int.tdiv a.man (10 ^ a.exp)

/-- Calendar date as stored in a `datetime64` index. -/
structure Date where
  year : Nat
  month : Nat
  day : Nat
deriving DecidableEq, Repr

/-- Order-reflecting key of a date: lexicographic on (year, month, day) once
month and day are known to be bounded by 12 and 31. -/
def Date.key (d : Date) : Nat := d.year * 10000 + d.month * 100 + d.day

/-- Numeric value of a digit character. -/
def charDigit (c : Char) : Nat := c.toNat - 48

/-- Parse a date given the ten characters of a "YYYY-MM-DD" string.  Models
the `datetime64[ns]` conversion applied to the index, restricted to the
canonical date format the upstream API documents for its data-block keys. -/
def parseDateChars (y1 y2 y3 y4 h1 m1 m2 h2 d1 d2 : Char) : Option Date :=
  if h1 = '-' ∧ h2 = '-' ∧ y1.isDigit ∧ y2.isDigit ∧ y3.isDigit ∧ y4.isDigit ∧
      m1.isDigit ∧ m2.isDigit ∧ d1.isDigit ∧ d2.isDigit then
    if 1 ≤ charDigit m1 * 10 + charDigit m2 ∧ charDigit m1 * 10 + charDigit m2 ≤ 12 ∧
        1 ≤ charDigit d1 * 10 + charDigit d2 ∧ charDigit d1 * 10 + charDigit d2 ≤ 31 then
      some ⟨((charDigit y1 * 10 + charDigit y2) * 10 + charDigit y3) * 10 + charDigit y4,
            charDigit m1 * 10 + charDigit m2, charDigit d1 * 10 + charDigit d2⟩
    else none
  else none

/-- Parse a "YYYY-MM-DD" date string. -/
def parseDate (s : String) : Option Date :=
  match s.toList with
  | [y1, y2, y3, y4, h1, m1, m2, h2, d1, d2] =>
      parseDateChars y1 y2 y3 y4 h1 m1 m2 h2 d1 d2
  | _ => none

/-- Left-pad a numeral with zeros to two digits. -/
def pad2 (n : Nat) : String := if n < 10 then "0" ++ toString n else toString n

/-- Left-pad a numeral with zeros to four digits. -/
def pad4 (n : Nat) : String :=
  if n < 10 then "000" ++ toString n
  else if n < 100 then "00" ++ toString n
  else if n < 1000 then "0" ++ toString n
  else toString n

/-- Render a date back to the canonical "YYYY-MM-DD" form. -/
def dateToString (d : Date) : String :=
  pad4 d.year ++ "-" ++ pad2 d.month ++ "-" ++ pad2 d.day

/-- A date string is canonical when parsing and re-rendering it round-trips.
For canonical strings, distinct strings denote distinct dates. -/
def canonicalDateString (s : String) : Bool :=
  match parseDate s with
  | some d => dateToString d = s
  | none => false

/-- Digits of a numeral, most significant first, folded to its value. -/
def digitsVal : List Char → Nat
  | [] => 0
  | c :: cs => charDigit c * 10 ^ cs.length + digitsVal cs

/-- Split a character list at the first dot. -/
def splitAtDot : List Char → Option (List Char × List Char)
  | [] => none
  | '.' :: cs => some ([], cs)
  | c :: cs =>
      match splitAtDot cs with
      | none => none
      | some (a, b) => some (c :: a, b)

/-- Parse an unsigned decimal numeral (digits, optionally with one dot) into
an exact decimal. -/
def parseUnsignedDec (cs : List Char) : Option Dec :=
  match splitAtDot cs with
  | none =>
      if cs ≠ [] ∧ cs.all Char.isDigit then some ⟨digitsVal cs, 0⟩ else none
  | some (a, b) =>
      if (a ++ b) ≠ [] ∧ a.all Char.isDigit ∧ b.all Char.isDigit then
        some ⟨digitsVal a * 10 ^ b.length + digitsVal b, b.length⟩
      else none

/-- Parse a decimal string into an exact decimal value.  Models Python's
`float(...)` conversion restricted to the plain decimal numerals that the
quote API delivers (optional sign, digits, at most one dot). -/
def parseFloatStr (s : String) : Option Dec :=
  match s.toList with
  | '-' :: cs => (parseUnsignedDec cs).map (fun d => ⟨-d.man, d.exp⟩)
  | '+' :: cs => parseUnsignedDec cs
  | cs => parseUnsignedDec cs

/-- One cell of a data frame: a float (possibly NaN after a missing raw
field) or an integer (after an `astype("int")` cast). -/
inductive Cell where
  | nan
  | f (d : Dec)
  | i (z : Int)
deriving DecidableEq, Repr

/-- True on numeric (non-NaN) cells. -/
def Cell.isNum : Cell → Bool
  | .nan => false
  | _ => true

/-- Numeric value of a cell; NaN maps to zero but is always excluded by an
`isNum` test before this is used. -/
def Cell.dec : Cell → Dec
  | .nan => ⟨0, 0⟩
  | .f d => d
  | .i z => ⟨z, 0⟩

/-- Subtraction of two cells; NaN is absorbing as in pandas.  The numeric
case is exact decimal arithmetic, standing in for the float64 subtraction
the program performs; the two agree on values and comparisons only up to
float64 rounding, so no theorem in this file depends on the equality or
order of two distinct subtraction results. -/
def Cell.sub : Cell → Cell → Cell
  | .f a, .f b => .f (Dec.sub a b)
  | .i a, .i b => .i (a - b)
  | .f a, .i b => .f (Dec.sub a ⟨b, 0⟩)
  | .i a, .f b => .f (Dec.sub ⟨a, 0⟩ b)
  | _, _ => .nan

/-- Data block of one API response: a mapping from date string to a mapping
from raw field name to value string, in JSON order. -/
abbrev SeriesBlock := List (String × List (String × String))

/-- Association-list lookup by string key (Python dict indexing; keys are
unique in a JSON object, so first match suffices). -/
def lookupStr {α : Type} (k : String) : List (String × α) → Option α
  | [] => none
  | (k2, v) :: rest => if k2 = k then some v else lookupStr k rest

/-- Error-propagating map over a list (left to right, first error wins). -/
def mapE {α β : Type} (f : α → Except PyErr β) : List α → Except PyErr (List β)
  | [] => .ok []
  | a :: rest =>
    match f a with
    | .error e => .error e
    | .ok b =>
      match mapE f rest with
      | .error e => .error e
      | .ok bs => .ok (b :: bs)

/-- Accumulate column names in first-occurrence order. -/
def addCols (acc : List String) : List String → List String
  | [] => acc
  | c :: cs => if acc.contains c then addCols acc cs else addCols (acc ++ [c]) cs

/-- Columns of the frame built from a data block: the union of the raw field
names over all rows, in first-occurrence order, as
`pd.DataFrame.from_dict(..., orient="index")` produces them. -/
def blockColNames (b : SeriesBlock) : List String :=
  b.foldl (fun acc r => addCols acc (r.2.map Prod.fst)) []

/-- String data frame after `from_dict`: named columns, a string index, and
one positional cell list per row. -/
structure RawFrame where
  colNames : List String
  index : List String
  rows : List (List Cell)
deriving DecidableEq, Repr

/-- Convert one value string to a float cell, as the `dtype=float` argument
of `from_dict` does; a non-numeric string raises `ValueError`. -/
def parseCellStr (s : String) : Except PyErr Cell :=
  match parseFloatStr s with
  | some d => .ok (.f d)
  | none => .error (.valueError ("could not convert string to float: " ++ s))

/-- Cells of one row, positionally aligned with the column list; a field
absent from this row yields NaN. -/
def rowCells (cols : List String) (kv : List (String × String)) : Except PyErr (List Cell) :=
  mapE (fun c =>
    match lookupStr c kv with
    | none => .ok Cell.nan
    | some s => parseCellStr s) cols

/-- Embeds `pd.DataFrame.from_dict(self._json_data[i], orient="index",
dtype=float)` (timeseries.py line 94): rows are keyed by date string,
columns are the union of raw field names, and every value string is parsed
as a float.  A value that cannot be parsed raises `ValueError` (not
`TypeError`). -/
def from_dict_orient_index_float (b : SeriesBlock) : Except PyErr RawFrame :=
  match mapE (fun r => rowCells (blockColNames b) r.2) b with
  | .error e => .error e
  | .ok rows => .ok ⟨blockColNames b, b.map Prod.fst, rows⟩

/-- The fixed raw-field-to-(canonical name, dtype) mapping
`TimeSeriesFinanceClient._data_field2name_type` (timeseries.py lines 51-60). -/
def data_field2name_type : List (String × String × String) :=
  [("1. open", "open", "float"),
   ("2. high", "high", "float"),
   ("3. low", "low", "float"),
   ("4. close", "close", "float"),
   ("5. adjusted close", "aclose", "float"),
   ("6. volume", "volume", "int"),
   ("7. dividend amount", "dividend", "float"),
   ("8. split coefficient", "splitc", "int")]

/-- Embeds `data_frame.rename(columns=...)` (timeseries.py lines 101-102).
`DataFrame.rename` is called without `errors="raise"`, so raw keys missing
from the frame are silently ignored and the call never raises `KeyError`;
the surrounding `except KeyError` handler in the source is unreachable. -/
def renameCols (m : List (String × String × String)) (df : RawFrame) : RawFrame :=
  ⟨df.colNames.map (fun c =>
      match lookupStr c m with
      | some nt => nt.1
      | none => c),
   df.index, df.rows⟩

/-- Cast one cell to the declared dtype, as `astype` does: float to int
truncates toward zero, NaN cannot be cast to int (`ValueError`). -/
def astypeCell (ty : String) (c : Cell) : Except PyErr Cell :=
  if ty = "int" then
    match c with
    | .nan => .error (.valueError "Cannot convert non-finite values (NA or inf) to integer")
    | .f d => .ok (.i d.trunc)
    | .i z => .ok (.i z)
  else
    match c with
    | .nan => .ok Cell.nan
    | .f d => .ok (.f d)
    | .i z => .ok (.f ⟨z, 0⟩)

/-- Cast one named column; a dtype-mapping key that is not a column of the
frame raises `KeyError` (pandas: "Only a column name can be used for the key
in a dtype mappings argument"). -/
def astypeCol (name ty : String) (df : RawFrame) : Except PyErr RawFrame :=
  match df.colNames.findIdx? (· == name) with
  | none => .error (.keyError name)
  | some i =>
    match mapE (fun row => (astypeCell ty (row.getD i Cell.nan)).map (fun c => row.set i c)) df.rows with
    | .error e => .error e
    | .ok rows2 => .ok ⟨df.colNames, df.index, rows2⟩

/-- Embeds `data_frame.astype(dtype=...)` (timeseries.py lines 109-110),
applied entry by entry in mapping order.  It raises `KeyError` for a missing
column and `ValueError` for an uncastable value, never `TypeError`. -/
def astypeMap : List (String × String × String) → RawFrame → Except PyErr RawFrame
  | [], df => .ok df
  | (_, name, ty) :: rest, df =>
    match astypeCol name ty df with
    | .error e => .error e
    | .ok df2 => astypeMap rest df2

/-- Embeds `data_frame.index = data_frame.index.astype("datetime64[ns]")`
(timeseries.py line 116): every index string must parse as a date. -/
def parseIndex : List String → Except PyErr (List Date)
  | [] => .ok []
  | s :: rest =>
    match parseDate s with
    | none => .error (.valueError ("Error parsing datetime string " ++ s))
    | some d =>
      match parseIndex rest with
      | .error e => .error e
      | .ok ds => .ok (d :: ds)

/-- Embeds a Python `try ... except TypeError: raise FinanceClientInvalidData(msg)`
block: only `TypeError` is converted, every other exception propagates. -/
def catchTypeError {α : Type} (msg : String) : Except PyErr α → Except PyErr α
  | .error (.typeError _) => .error (.financeClientInvalidData msg)
  | r => r

/-- Comparison through a key function into a linear order; used to model the
stable sorts of the pipeline. -/
def leOn {α β : Type} [LinearOrder β] (f : α → β) (a b : α) : Prop := f a ≤ f b

instance {α β : Type} [LinearOrder β] (f : α → β) : DecidableRel (leOn f) :=
  fun a b => inferInstanceAs (Decidable (f a ≤ f b))

instance {α β : Type} [LinearOrder β] (f : α → β) : IsTotal α (leOn f) :=
  ⟨fun a b => le_total (f a) (f b)⟩

instance {α β : Type} [LinearOrder β] (f : α → β) : IsTrans α (leOn f) :=
  ⟨fun _ _ _ h1 h2 => le_trans h1 h2⟩

/-- Normalized per-ticker table: named columns and date-indexed rows. -/
structure ParsedFrame where
  colNames : List String
  rows : List (Date × List Cell)
deriving DecidableEq, Repr

/-- Embeds the body of `TimeSeriesFinanceClient._build_data_frame`
(timeseries.py lines 91-120) for one ticker: build the frame with every
value as float, rename the raw fields, cast each column to its declared
dtype, parse the date index, and sort ascending by date.  The two
`except TypeError` handlers of the source are modelled by `catchTypeError`;
note that the failures the body can actually produce are `ValueError` and
`KeyError`, which those handlers do not catch. -/
def build_one_data_frame (b : SeriesBlock) : Except PyErr ParsedFrame :=
  match catchTypeError "Data json not specified" (from_dict_orient_index_float b) with
  | .error e => .error e
  | .ok df0 =>
    let df1 := renameCols data_field2name_type df0
    match catchTypeError "Data type not understood" (astypeMap data_field2name_type df1) with
    | .error e => .error e
    | .ok df2 =>
      match parseIndex df2.index with
      | .error e => .error e
      | .ok dates =>
        .ok ⟨df2.colNames,
             List.insertionSort (leOn (fun r : Date × List Cell => r.1.key)) (dates.zip df2.rows)⟩

/-- Embeds the loop of `_build_data_frame` over all tickers: the Python
iterates `for i, tick in enumerate(self._ticker)` reading
`self._json_data[i]`; after a successful base construction the two lists
have equal length, so this is the same as mapping over the stored data
blocks in order. -/
def build_data_frame : List SeriesBlock → Except PyErr (List ParsedFrame)
  | [] => .ok []
  | b :: bs =>
    match build_one_data_frame b with
    | .error e => .error e
    | .ok f =>
      match build_data_frame bs with
      | .error e => .error e
      | .ok fs => .ok (f :: fs)

/-- Minimal JSON universe for the decoded response body: the library only
ever reads string leaves and object nodes. -/
inductive Json where
  | str (s : String)
  | obj (fields : List (String × Json))

/-- Python `body[key]` on a decoded JSON object. -/
def Json.lookupField : Json → String → Option Json
  | .str _, _ => none
  | .obj fs, k => lookupStr k fs

/-- View a JSON node as a flat string-to-string object (the metadata block). -/
def Json.asStrMap : Json → Option (List (String × String))
  | .str _ => none
  | .obj fs =>
    fs.mapM (fun p =>
      match p.2 with
      | .str s => some (p.1, s)
      | .obj _ => none)

/-- View a JSON node as a data block: object of objects of strings. -/
def Json.asSeriesMap : Json → Option SeriesBlock
  | .str _ => none
  | .obj fs => fs.mapM (fun p => (p.2.asStrMap).map (fun m => (p.1, m)))

/-- Outcome of one `requests.get(url)` call: the transport either raises or
delivers a response with a status code and a body; `none` stands for a body
on which `response.json()` raises (unparsable). -/
inductive TransportOutcome where
  | raises
  | responds (status : Nat) (body : Option Json)

/-- The fixed class attribute `FinanceClient._FinanceBaseQueryURL`
(finance.py line 69). -/
def build_base_query_url : String := "https://www.alphavantage.co/query?"

/-- Embeds `TimeSeriesFinanceClient._build_base_query_url_params`
(timeseries.py line 142). -/
def build_base_query_url_params (ticker apiKey : String) : String :=
  "function=TIME_SERIES_DAILY_ADJUSTED&symbol=" ++ ticker ++
    "&outputsize=full&apikey=" ++ apiKey

/-- Embeds `FinanceClient._query_api` (finance.py lines 190-199).  The
`try` block runs `requests.get` and asserts a 200 status; the handler
rebuilds a message from the local variable `response`.  When `requests.get`
itself raises, `response` was never bound, so evaluating the f-string inside
the handler raises `UnboundLocalError` (a `NameError`), which replaces the
intended `FinanceClientAPIError`; only the non-200 path actually produces
the `FinanceClientAPIError` carrying the URL and the status. -/
def query_api (transport : String → TransportOutcome) (url : String) :
    Except PyErr (String × Nat × Option Json) :=
  match transport url with
  | .raises => .error PyErr.nameError
  | .responds status body =>
    if status = 200 then .ok (url, status, body)
    else
      .error (.financeClientAPIError
        ("Unsuccessful API access [URL: " ++ url ++ ", status: " ++ toString status ++ "]"))

/-- Embeds `FinanceClient._process_query_response` (finance.py lines
230-237): decode the body, read the "Meta Data" block and the data block
keyed by `_build_query_data_key()` ("Time Series (Daily)"); every failure in
that block (unparsable body, missing key, non-object shape) is caught by the
blanket `except Exception` and surfaces as `FinanceClientInvalidData`. -/
def process_query_response (body : Option Json) :
    Except PyErr (List (String × String) × SeriesBlock) :=
  match body with
  | none => .error (.financeClientInvalidData "Invalid data")
  | some j =>
    match j.lookupField "Meta Data", j.lookupField "Time Series (Daily)" with
    | some jm, some jd =>
      match jm.asStrMap, jd.asSeriesMap with
      | some m, some d => .ok (m, d)
      | _, _ => .error (.financeClientInvalidData "Invalid data")
    | _, _ => .error (.financeClientInvalidData "Invalid data")

/-- Embeds `TimeSeriesFinanceClient._validate_query_data` (timeseries.py
lines 154-173): assert that the metadata field "2. Symbol" equals the
requested ticker; a missing key (`KeyError`) and a failed assertion
(`AssertionError`) are both caught and re-raised as
`FinanceClientInvalidData`. -/
def validate_query_data (metadata : List (String × String)) (ticker : String) :
    Except PyErr Unit :=
  match lookupStr "2. Symbol" metadata with
  | none => .error (.financeClientInvalidData "Metadata field \x272. Symbol\x27 not found")
  | some s =>
    if s = ticker then .ok ()
    else .error (.financeClientInvalidData "Metadata field \x272. Symbol\x27 not found")

/-- The `api_key` constructor argument: absent, a string, or a truthy value
of some non-string type. -/
inductive APIKeyArg where
  | noKey
  | str (s : String)
  | nonString
deriving DecidableEq, Repr

/-- Python falsiness of the key argument (`not self._api_key`). -/
def APIKeyArg.falsy : APIKeyArg → Bool
  | .noKey => true
  | .str s => s = ""
  | .nonString => false

/-- Embeds the key configuration of `FinanceClient.__init__` (finance.py
lines 103-106): fall back to the environment variable when the argument is
falsy, then fail with `FinanceClientInvalidAPIKey` unless the result is a
non-empty string.  The exception message interpolates the concrete class
qualname, which is `TimeSeriesFinanceClient` for every client built here. -/
def resolve_api_key (apiKey : APIKeyArg) (env : Option String) : Except PyErr String :=
  let k := if apiKey.falsy then
             match env with
             | some s => APIKeyArg.str s
             | none => APIKeyArg.noKey
           else apiKey
  match k with
  | .str s =>
    if s = "" then .error (.financeClientInvalidAPIKey "TimeSeriesFinanceClient operation failed")
    else .ok s
  | .noKey => .error (.financeClientInvalidAPIKey "TimeSeriesFinanceClient operation failed")
  | .nonString => .error (.financeClientInvalidAPIKey "TimeSeriesFinanceClient operation failed")

/-- Embeds the per-ticker loop of `FinanceClient.__init__` (finance.py lines
108-119): query the API, process the response, validate the metadata, then
continue with the remaining tickers.  The second component collects the URLs
actually requested, in order, so that "no network call is attempted" is the
statement that this list is empty. -/
def query_loop (transport : String → TransportOutcome) (key : String) :
    List String → Except PyErr (List (List (String × String)) × List SeriesBlock) × List String
  | [] => (.ok ([], []), [])
  | t :: ts =>
    let url := build_base_query_url ++ build_base_query_url_params t key
    match query_api transport url with
    | .error e => (.error e, [url])
    | .ok (_, _, body) =>
      match process_query_response body with
      | .error e => (.error e, [url])
      | .ok (m, d) =>
        match validate_query_data m t with
        | .error e => (.error e, [url])
        | .ok _ =>
          match query_loop transport key ts with
          | (.error e, urls) => (.error e, url :: urls)
          | (.ok (ms, ds), urls) => (.ok (m :: ms, d :: ds), url :: urls)

/-- State of a fully constructed `FinanceClient` base object. -/
structure BaseState where
  ticker : List String
  apiKey : String
  jsonMetadata : List (List (String × String))
  jsonData : List SeriesBlock

/-- Embeds `FinanceClient.__init__` (finance.py lines 71-122): configure the
key, then run the per-ticker query loop. -/
def finance_client_init (tickers : List String) (apiKey : APIKeyArg)
    (env : Option String) (transport : String → TransportOutcome) :
    Except PyErr BaseState × List String :=
  match resolve_api_key apiKey env with
  | .error e => (.error e, [])
  | .ok key =>
    match query_loop transport key tickers with
    | (.error e, urls) => (.error e, urls)
    | (.ok (ms, ds), urls) => (.ok ⟨tickers, key, ms, ds⟩, urls)

/-- State of a fully constructed `TimeSeriesFinanceClient`. -/
structure ClientState where
  base : BaseState
  dataFrames : List ParsedFrame

/-- Embeds `TimeSeriesFinanceClient.__init__` (timeseries.py lines 62-78):
run the base constructor, then `_build_data_frame`. -/
def ts_client_init (tickers : List String) (apiKey : APIKeyArg)
    (env : Option String) (transport : String → TransportOutcome) :
    Except PyErr ClientState × List String :=
  match finance_client_init tickers apiKey env transport with
  | (.error e, urls) => (.error e, urls)
  | (.ok b, urls) =>
    match build_data_frame b.jsonData with
    | .error e => (.error e, urls)
    | .ok frames => (.ok ⟨b, frames⟩, urls)

/-- Column selection `df[name]`: a missing column raises `KeyError`. -/
def getCol (name : String) (f : ParsedFrame) : Except PyErr (List (Date × Cell)) :=
  match f.colNames.findIdx? (· == name) with
  | none => .error (.keyError name)
  | some i => .ok (f.rows.map (fun r => (r.1, r.2.getD i Cell.nan)))

/-- Embeds `TimeSeriesFinanceClient.daily_price` (timeseries.py lines
175-217): for each table take the `close` column; only when both bounds are
present, check `from_date <= to_date` (raising `FinanceClientParamError`
otherwise) and slice inclusively; with any bound absent the full series is
kept.  The check and the slice sit inside the per-table loop. -/
def daily_price : List ParsedFrame → Option Date → Option Date →
    Except PyErr (List (List (Date × Cell)))
  | [], _, _ => .ok []
  | df :: rest, fdO, tdO =>
    match getCol "close" df with
    | .error e => .error e
    | .ok series =>
      match fdO, tdO with
      | some fd, some td =>
        if td.key < fd.key then .error (.financeClientParamError "Dates are incorrect")
        else
          match daily_price rest fdO tdO with
          | .error e => .error e
          | .ok tail =>
            .ok (series.filter (fun r => fd.key ≤ r.1.key && r.1.key ≤ td.key) :: tail)
      | _, _ =>
        match daily_price rest fdO tdO with
        | .error e => .error e
        | .ok tail => .ok (series :: tail)

/-- Embeds `TimeSeriesFinanceClient.daily_volume` (timeseries.py lines
219-262), identical to `daily_price` with the `volume` column. -/
def daily_volume : List ParsedFrame → Option Date → Option Date →
    Except PyErr (List (List (Date × Cell)))
  | [], _, _ => .ok []
  | df :: rest, fdO, tdO =>
    match getCol "volume" df with
    | .error e => .error e
    | .ok series =>
      match fdO, tdO with
      | some fd, some td =>
        if td.key < fd.key then .error (.financeClientParamError "Dates are incorrect")
        else
          match daily_volume rest fdO tdO with
          | .error e => .error e
          | .ok tail =>
            .ok (series.filter (fun r => fd.key ≤ r.1.key && r.1.key ≤ td.key) :: tail)
      | _, _ =>
        match daily_volume rest fdO tdO with
        | .error e => .error e
        | .ok tail => .ok (series :: tail)

/-- Sum of the numeric cells selected by the date predicate, skipping NaN as
a pandas sum does. -/
def cellDecSum (rows : List (Date × Cell)) (p : Date → Bool) : Dec :=
  rows.foldl (fun acc r => if p r.1 && r.2.isNum then Dec.add acc r.2.dec else acc) ⟨0, 0⟩

/-- Calendar years spanned by a series, from the earliest to the latest row,
as `groupby(pd.Grouper(level=0, freq="1YS"))` bins them. -/
def yearsSpan : List (Date × Cell) → List Nat
  | [] => []
  | r :: rest =>
    let lo := rest.foldl (fun acc x => min acc x.1.year) r.1.year
    let hi := rest.foldl (fun acc x => max acc x.1.year) r.1.year
    (List.range (hi + 1 - lo)).map (fun i => lo + i)

/-- Yearly dividend sums labeled by the year rendered with `strftime("%Y")`
(timeseries.py lines 290-291). -/
def yearly_dividends_series (rows : List (Date × Cell)) : List (String × Dec) :=
  (yearsSpan rows).map (fun y => (toString y, cellDecSum rows (fun d => d.year == y)))

/-- Kernel-computable lexicographic comparison of character lists. -/
def strListLe : List Char → List Char → Bool
  | [], _ => true
  | _ :: _, [] => false
  | a :: as, b :: bs =>
    if a.toNat < b.toNat then true
    else if b.toNat < a.toNat then false
    else strListLe as bs

/-- Lexicographic string comparison, used for the label-based `.loc` slice
over the string year labels. -/
def strLe (a b : String) : Bool := strListLe a.toList b.toList

/-- Embeds `TimeSeriesFinanceClient.yearly_dividends` (timeseries.py lines
264-308): group the `dividend` column by calendar year, label by year
string, then apply the same in-loop range check and label slice
`loc[str(from_year):str(to_year)]`. -/
def yearly_dividends : List ParsedFrame → Option Nat → Option Nat →
    Except PyErr (List (List (String × Dec)))
  | [], _, _ => .ok []
  | df :: rest, fyO, tyO =>
    match getCol "dividend" df with
    | .error e => .error e
    | .ok divs =>
      let series := yearly_dividends_series divs
      match fyO, tyO with
      | some fy, some ty =>
        if ty < fy then .error (.financeClientParamError "Dates are incorrect")
        else
          match yearly_dividends rest fyO tyO with
          | .error e => .error e
          | .ok tail =>
            .ok (series.filter (fun p => strLe (toString fy) p.1 && strLe p.1 (toString ty)) :: tail)
      | _, _ =>
        match yearly_dividends rest fyO tyO with
        | .error e => .error e
        | .ok tail => .ok (series :: tail)

/-- Index of the calendar quarter of a date on the time line. -/
def Date.qIndex (d : Date) : Nat := d.year * 4 + (d.month - 1) / 3

/-- First day of the quarter with the given index. -/
def quarterStart (n : Nat) : Date := ⟨n / 4, n % 4 * 3 + 1, 1⟩

/-- Quarter-start bins spanned by a series, as `resample("QS")` bins them. -/
def quartersSpan : List (Date × Cell) → List Date
  | [] => []
  | r :: rest =>
    let lo := rest.foldl (fun acc x => min acc x.1.qIndex) r.1.qIndex
    let hi := rest.foldl (fun acc x => max acc x.1.qIndex) r.1.qIndex
    (List.range (hi + 1 - lo)).map (fun i => quarterStart (lo + i))

/-- Quarterly dividend sums indexed by quarter start (timeseries.py line 336). -/
def dividends_per_quarter_series (rows : List (Date × Cell)) : List (Date × Dec) :=
  (quartersSpan rows).map (fun q => (q, cellDecSum rows (fun d => d.qIndex == q.qIndex)))

/-- Embeds `TimeSeriesFinanceClient.yearly_dividends_per_quarter`
(timeseries.py lines 310-353): group `dividend` by quarter start, then the
same in-loop range check; the slice `loc[str(from_year):str(to_year)]` is a
partial-string slice on the datetime index, keeping whole calendar years
inclusively. -/
def yearly_dividends_per_quarter : List ParsedFrame → Option Nat → Option Nat →
    Except PyErr (List (List (Date × Dec)))
  | [], _, _ => .ok []
  | df :: rest, fyO, tyO =>
    match getCol "dividend" df with
    | .error e => .error e
    | .ok divs =>
      let series := dividends_per_quarter_series divs
      match fyO, tyO with
      | some fy, some ty =>
        if ty < fy then .error (.financeClientParamError "Dates are incorrect")
        else
          match yearly_dividends_per_quarter rest fyO tyO with
          | .error e => .error e
          | .ok tail =>
            .ok (series.filter (fun p => fy ≤ p.1.year && p.1.year ≤ ty) :: tail)
      | _, _ =>
        match yearly_dividends_per_quarter rest fyO tyO with
        | .error e => .error e
        | .ok tail => .ok (series :: tail)

/-- Comparison of list elements by a decimal-valued key; this is the sort
relation of `sort_values`. -/
def decLeOn {α : Type} (key : α → Dec) (a b : α) : Prop := Dec.le (key a) (key b)

instance {α : Type} (key : α → Dec) : DecidableRel (decLeOn key) :=
  fun a b => inferInstanceAs (Decidable (Dec.le (key a) (key b)))

instance {α : Type} (key : α → Dec) : IsTotal α (decLeOn key) :=
  ⟨fun a b => Int.le_total ((key a).man * 10 ^ (key b).exp) ((key b).man * 10 ^ (key a).exp)⟩

instance {α : Type} (key : α → Dec) : IsTrans α (decLeOn key) :=
  ⟨fun a b c h1 h2 => by
    unfold decLeOn Dec.le at h1 h2 ⊢
    have hb : (0 : Int) < 10 ^ (key b).exp := pow_pos (by norm_num) _
    have hc : (0 : Int) ≤ 10 ^ (key c).exp := le_of_lt (pow_pos (by norm_num) _)
    have ha : (0 : Int) ≤ 10 ^ (key a).exp := le_of_lt (pow_pos (by norm_num) _)
    have h3 : (key a).man * 10 ^ (key c).exp * 10 ^ (key b).exp ≤
        (key c).man * 10 ^ (key a).exp * 10 ^ (key b).exp := by
      calc (key a).man * 10 ^ (key c).exp * 10 ^ (key b).exp
          = (key a).man * 10 ^ (key b).exp * 10 ^ (key c).exp := by ring
        _ ≤ (key b).man * 10 ^ (key a).exp * 10 ^ (key c).exp :=
            mul_le_mul_of_nonneg_right h1 hc
        _ = (key b).man * 10 ^ (key c).exp * 10 ^ (key a).exp := by ring
        _ ≤ (key c).man * 10 ^ (key b).exp * 10 ^ (key a).exp :=
            mul_le_mul_of_nonneg_right h2 ha
        _ = (key c).man * 10 ^ (key a).exp * 10 ^ (key b).exp := by ring
    exact le_of_mul_le_mul_right h3 hb⟩

/-- Embeds `sort_values(column, ascending=False)` on the non-NaN part of the
key column.  pandas (`nargsort`) implements a descending sort as: reverse
the values, run the ascending `argsort` kernel, and reverse the resulting
order again.  The kernel here is a stable insertion sort; numpy's default
`kind="quicksort"` (introsort) agrees with it exactly only on inputs short
enough to take numpy's insertion-sort path (at most 16 elements) and is
otherwise unstable, so the relative order this model gives to equal keys is
not a guarantee of the program for longer inputs.  No theorem in this file
depends on the position of equal keys under this sort. -/
def sort_values_desc {α : Type} (key : α → Dec) (l : List α) : List α :=
  (List.insertionSort (decLeOn key) l.reverse).reverse

/-- Embeds one loop iteration of
`TimeSeriesFinanceClient.highest_daily_variation` (timeseries.py lines
365-378): take the `high` and `low` columns, add the spread column
`high - low`, sort descending on the spread with NaN keys placed last, and
return the first row as the tuple (date, high, low, spread); an empty table
raises `IndexError` at `index.values[0]`. -/
def hdv_one (df : ParsedFrame) : Except PyErr (Date × Cell × Cell × Cell) :=
  match getCol "high" df, getCol "low" df with
  | .error e, _ => .error e
  | _, .error e => .error e
  | .ok highs, .ok lows =>
    let trips := (highs.zip lows).map (fun p => (p.1.1, p.1.2, p.2.2, Cell.sub p.1.2 p.2.2))
    let sorted := sort_values_desc (fun t => t.2.2.2.dec) (trips.filter (fun t => t.2.2.2.isNum))
        ++ trips.filter (fun t => !t.2.2.2.isNum)
    match sorted.head? with
    | none => .error PyErr.indexError
    | some t => .ok t

/-- Embeds `TimeSeriesFinanceClient.highest_daily_variation` over the table
list (timeseries.py lines 355-380). -/
def highest_daily_variation : List ParsedFrame → Except PyErr (List (Date × Cell × Cell × Cell))
  | [] => .ok []
  | df :: rest =>
    match hdv_one df with
    | .error e => .error e
    | .ok t =>
      match highest_daily_variation rest with
      | .error e => .error e
      | .ok ts => .ok (t :: ts)

/-- Rendering of one cell for the CSV export (representation-level; the
claims only concern which table the export depends on). -/
def cellToString : Cell → String
  | .nan => ""
  | .f d => toString d.man ++ "e-" ++ toString d.exp
  | .i z => toString z

/-- Rows of a table rendered as delimited text, date index included. -/
def render_csv (f : ParsedFrame) : String :=
  "," ++ String.intercalate "," f.colNames ++ "\n" ++
    String.join (f.rows.map (fun r =>
      dateToString r.1 ++ "," ++ String.intercalate "," (r.2.map cellToString) ++ "\n"))

/-- Embeds `FinanceClient.to_csv` (finance.py lines 283-290): it writes
`self._data_frame[0]` — only the first table — to the file; on an empty
table list the subscript raises `IndexError` (the handler only catches
`IOError`/`PermissionError`).  The result pairs the path with the content
written. -/
def to_csv (frames : List ParsedFrame) (path2file : String) :
    Except PyErr (String × String) :=
  match frames with
  | [] => .error PyErr.indexError
  | f :: _ => .ok (path2file, render_csv f)

/-- Embeds `FinanceClient.to_pandas` (finance.py lines 255-265). -/
def to_pandas (st : ClientState) : List ParsedFrame := st.dataFrames

/-- Well-formedness of a data block used by the index invariant: every date
key is a canonical "YYYY-MM-DD" string and the keys are pairwise distinct. -/
def wellFormedBlock (b : SeriesBlock) : Prop :=
  (b.map Prod.fst).Nodup ∧ ∀ s ∈ b.map Prod.fst, canonicalDateString s = true

instance (b : SeriesBlock) : Decidable (wellFormedBlock b) :=
  inferInstanceAs (Decidable (_ ∧ _))

/-- Fully normalized two-row table used by concrete witnesses. -/
def exampleFullFrame : ParsedFrame :=
  ⟨["open", "high", "low", "close", "aclose", "volume", "dividend", "splitc"],
   [(⟨2019, 1, 2⟩,
     [Cell.f ⟨505, 1⟩, Cell.f ⟨5741, 2⟩, Cell.f ⟨450, 1⟩, Cell.f ⟨490, 1⟩,
      Cell.f ⟨485, 1⟩, Cell.i 2000, Cell.f ⟨5, 1⟩, Cell.i 1]),
    (⟨2020, 3, 16⟩,
     [Cell.f ⟨1005, 1⟩, Cell.f ⟨10741, 2⟩, Cell.f ⟨950, 1⟩, Cell.f ⟨990, 1⟩,
      Cell.f ⟨985, 1⟩, Cell.i 1000, Cell.f ⟨0, 1⟩, Cell.i 1])]⟩

/-- Fully populated raw row used by concrete test inputs. -/
def exampleRow : List (String × String) :=
  [("1. open", "100.5"), ("2. high", "107.41"), ("3. low", "95.0"), ("4. close", "99.0"),
   ("5. adjusted close", "98.5"), ("6. volume", "1000"), ("7. dividend amount", "0.0"),
   ("8. split coefficient", "1.0")]

/-- A second fully populated raw row with an earlier date in the block. -/
def exampleRow2 : List (String × String) :=
  [("1. open", "50.5"), ("2. high", "57.41"), ("3. low", "45.0"), ("4. close", "49.0"),
   ("5. adjusted close", "48.5"), ("6. volume", "2000"), ("7. dividend amount", "0.5"),
   ("8. split coefficient", "1.0")]

/-- Well-formed two-day data block. -/
def exampleBlock : SeriesBlock :=
  [("2020-03-16", exampleRow), ("2019-01-02", exampleRow2)]

/-- Data block in which the raw field "1. open" is absent from every row. -/
def exampleBlockMissingOpen : SeriesBlock := [("2020-03-16", exampleRow.tail)]

/-- Data block in which the value of "1. open" is not a numeral. -/
def exampleBlockBadOpen : SeriesBlock :=
  [("2020-03-16", ("1. open", "abc") :: exampleRow.tail)]

/-- A decoded response body for ticker "IBM" wrapping `exampleBlock`. -/
def exampleBody : Json :=
  .obj [("Meta Data", .obj [("2. Symbol", .str "IBM")]),
        ("Time Series (Daily)",
         .obj [("2020-03-16", .obj (exampleRow.map (fun p => (p.1, Json.str p.2)))),
               ("2019-01-02", .obj (exampleRow2.map (fun p => (p.1, Json.str p.2))))])]

/-- A decoded response body whose metadata reports a different symbol. -/
def exampleBodyWrongSymbol : Json :=
  .obj [("Meta Data", .obj [("2. Symbol", .str "MSFT")]),
        ("Time Series (Daily)", .obj [])]

theorem daily_price_nobound : ∀ (frames : List ParsedFrame) (fdO tdO : Option Date),
    fdO = none ∨ tdO = none → daily_price frames fdO tdO = mapE (getCol "close") frames
  | [], _, _, _ => rfl
  | df :: rest, fdO, tdO, h => by
    have hrec := daily_price_nobound rest fdO tdO h
    rcases h with h | h <;> subst h
    · simp only [daily_price, mapE]
      cases getCol "close" df with
      | error e => rfl
      | ok cs =>
        rw [hrec]
        cases mapE (getCol "close") rest with
        | error e => rfl
        | ok tail => rfl
    · cases fdO with
      | none =>
        simp only [daily_price, mapE]
        cases getCol "close" df with
        | error e => rfl
        | ok cs =>
        rw [hrec]
        cases mapE (getCol "close") rest with
        | error e => rfl
        | ok tail => rfl
      | some fd =>
        simp only [daily_price, mapE]
        cases getCol "close" df with
        | error e => rfl
        | ok cs =>
        rw [hrec]
        cases mapE (getCol "close") rest with
        | error e => rfl
        | ok tail => rfl

theorem daily_volume_nobound : ∀ (frames : List ParsedFrame) (fdO tdO : Option Date),
    fdO = none ∨ tdO = none → daily_volume frames fdO tdO = mapE (getCol "volume") frames
  | [], _, _, _ => rfl
  | df :: rest, fdO, tdO, h => by
    have hrec := daily_volume_nobound rest fdO tdO h
    rcases h with h | h <;> subst h
    · simp only [daily_volume, mapE]
      cases getCol "volume" df with
      | error e => rfl
      | ok cs =>
        rw [hrec]
        cases mapE (getCol "volume") rest with
        | error e => rfl
        | ok tail => rfl
    · cases fdO with
      | none =>
        simp only [daily_volume, mapE]
        cases getCol "volume" df with
        | error e => rfl
        | ok cs =>
        rw [hrec]
        cases mapE (getCol "volume") rest with
        | error e => rfl
        | ok tail => rfl
      | some fd =>
        simp only [daily_volume, mapE]
        cases getCol "volume" df with
        | error e => rfl
        | ok cs =>
        rw [hrec]
        cases mapE (getCol "volume") rest with
        | error e => rfl
        | ok tail => rfl

/-- C1 (counterexample): a client constructed from the empty ticker list is
a successfully constructed client on which `daily_price`/`daily_volume`
with both bounds given and `from > to` return the empty list instead of
failing with `FinanceClientParamError`, because the range check sits inside
the per-table loop and there is no table. -/
theorem C1_ctrex_empty_client_no_param_error :
    ts_client_init [] (.str "nokey") none (fun _ => TransportOutcome.raises) =
      (.ok ⟨⟨[], "nokey", [], []⟩, []⟩, []) ∧
    daily_price [] (some ⟨2021, 1, 1⟩) (some ⟨2020, 2, 28⟩) = .ok [] ∧
    daily_volume [] (some ⟨2021, 1, 1⟩) (some ⟨2020, 2, 28⟩) = .ok [] ∧
    Date.key ⟨2020, 2, 28⟩ < Date.key ⟨2021, 1, 1⟩ :=
  ⟨rfl, rfl, rfl, by decide⟩

/-- C1 (amended): on a client with at least one table (whose first table has
the selected column), `daily_price`/`daily_volume` with both bounds given
and `from > to` fail with `FinanceClientParamError`; and whenever either
bound is omitted, no range check and no filtering occur: the result is
exactly the full `close` (resp. `volume`) column of every table. -/
theorem C1_range_check_and_unfiltered_series :
    (∀ (df : ParsedFrame) (rest : List ParsedFrame) (fd td : Date)
        (cs vs : List (Date × Cell)),
        getCol "close" df = .ok cs → getCol "volume" df = .ok vs → td.key < fd.key →
        daily_price (df :: rest) (some fd) (some td) =
          .error (.financeClientParamError "Dates are incorrect") ∧
        daily_volume (df :: rest) (some fd) (some td) =
          .error (.financeClientParamError "Dates are incorrect")) ∧
    (∀ (frames : List ParsedFrame) (fdO tdO : Option Date), fdO = none ∨ tdO = none →
        daily_price frames fdO tdO = mapE (getCol "close") frames ∧
        daily_volume frames fdO tdO = mapE (getCol "volume") frames) := by
  constructor
  · intro df rest fd td cs vs h1 h2 hlt
    constructor
    · simp only [daily_price, h1]
      rw [if_pos hlt]
    · simp only [daily_volume, h2]
      rw [if_pos hlt]
  · intro frames fdO tdO h
    exact ⟨daily_price_nobound frames fdO tdO h, daily_volume_nobound frames fdO tdO h⟩

/-- C1 (witness): the amended statement applied to a concrete one-table
client and concrete inverted bounds, and to a concrete omitted bound. -/
theorem C1_range_check_witness :
    daily_price [exampleFullFrame] (some ⟨2021, 1, 1⟩) (some ⟨2020, 2, 28⟩) =
      .error (.financeClientParamError "Dates are incorrect") ∧
    daily_price [exampleFullFrame] none (some ⟨2020, 2, 28⟩) =
      mapE (getCol "close") [exampleFullFrame] := by
  constructor
  · exact (C1_range_check_and_unfiltered_series.1 exampleFullFrame [] ⟨2021, 1, 1⟩ ⟨2020, 2, 28⟩
      [(⟨2019, 1, 2⟩, Cell.f ⟨490, 1⟩), (⟨2020, 3, 16⟩, Cell.f ⟨990, 1⟩)]
      [(⟨2019, 1, 2⟩, Cell.i 2000), (⟨2020, 3, 16⟩, Cell.i 1000)]
      rfl rfl (by decide)).1
  · exact (C1_range_check_and_unfiltered_series.2 [exampleFullFrame] none (some ⟨2020, 2, 28⟩)
      (Or.inl rfl)).1

/-- C2: at a data block from which the raw field "1. open" is absent, table
construction does fail, but with the uncaught pandas `KeyError` raised by
`astype` — not with `FinanceClientInvalidData` as the claim states: the
`rename` call never raises (it ignores missing labels), and the `astype`
call is guarded by a handler that catches only `TypeError`. -/
theorem C2_missing_raw_key_uncaught_keyerror :
    build_data_frame [exampleBlockMissingOpen] = .error (PyErr.keyError "open") ∧
    (PyErr.keyError "open").isInvalidData = false :=
  ⟨rfl, rfl⟩

/-- C3: at a data block whose "1. open" value is the non-numeral "abc",
table construction does fail, but with the uncaught `ValueError` raised
while building the float frame (`from_dict(..., dtype=float)`) — not with
`FinanceClientInvalidData` as the claim states: the surrounding handler
catches only `TypeError`. -/
theorem C3_uncastable_value_uncaught_valueerror :
    build_data_frame [exampleBlockBadOpen] =
      .error (.valueError "could not convert string to float: abc") ∧
    (PyErr.valueError "could not convert string to float: abc").isInvalidData = false :=
  ⟨rfl, rfl⟩

/-- C7: the metadata consistency check passes exactly when the metadata
field "2. Symbol" is present and equal to the requested ticker, and fails
with `FinanceClientInvalidData` when the field is missing or mismatched;
lifted to construction, a mismatching response makes the whole constructor
fail with that error after its single query. -/
theorem C7_symbol_consistency_check :
    ∀ (m : List (String × String)) (t : String),
      (lookupStr "2. Symbol" m = some t → validate_query_data m t = .ok ()) ∧
      (lookupStr "2. Symbol" m ≠ some t →
        validate_query_data m t =
          .error (.financeClientInvalidData "Metadata field \x272. Symbol\x27 not found")) ∧
      (∀ (key : String) (transport : String → TransportOutcome) (body : Option Json)
          (d : SeriesBlock),
        transport (build_base_query_url ++ build_base_query_url_params t key) =
          .responds 200 body →
        process_query_response body = .ok (m, d) →
        lookupStr "2. Symbol" m ≠ some t →
        query_loop transport key [t] =
          (.error (.financeClientInvalidData "Metadata field \x272. Symbol\x27 not found"),
           [build_base_query_url ++ build_base_query_url_params t key])) := by
  intro m t
  have hval : ∀ hne : lookupStr "2. Symbol" m ≠ some t,
      validate_query_data m t =
        .error (.financeClientInvalidData "Metadata field \x272. Symbol\x27 not found") := by
    intro hne
    cases hl : lookupStr "2. Symbol" m with
    | none => simp [validate_query_data, hl]
    | some s =>
      have hst : s ≠ t := fun hs => hne (by rw [hl, hs])
      simp [validate_query_data, hl, hst]
  refine ⟨?_, hval, ?_⟩
  · intro heq
    simp [validate_query_data, heq]
  · intro key transport body d htr hpr hne
    simp [query_loop, query_api, htr, hpr, hval hne]

/-- C7 (witness): the check at concrete matching and mismatching metadata,
and the construction-level failure at a concrete transport. -/
theorem C7_symbol_consistency_witness :
    validate_query_data [("2. Symbol", "IBM")] "IBM" = .ok () ∧
    validate_query_data [] "IBM" =
      .error (.financeClientInvalidData "Metadata field \x272. Symbol\x27 not found") ∧
    query_loop (fun _ => .responds 200 (some exampleBodyWrongSymbol)) "k" ["IBM"] =
      (.error (.financeClientInvalidData "Metadata field \x272. Symbol\x27 not found"),
       [build_base_query_url ++ build_base_query_url_params "IBM" "k"]) := by
  refine ⟨(C7_symbol_consistency_check [("2. Symbol", "IBM")] "IBM").1 (by decide),
          (C7_symbol_consistency_check [] "IBM").2.1 (by decide),
          (C7_symbol_consistency_check [("2. Symbol", "MSFT")] "IBM").2.2 "k"
            (fun _ => .responds 200 (some exampleBodyWrongSymbol))
            (some exampleBodyWrongSymbol) [] rfl rfl (by decide)⟩

/-- C8: with a falsy key argument and no usable environment default, or
with a truthy non-string key argument, construction fails with
`FinanceClientInvalidAPIKey` and the list of URLs requested is empty — no
network call is attempted — for every ticker list. -/
theorem C8_invalid_api_key_before_network :
    ∀ (tickers : List String) (apiKey : APIKeyArg) (env : Option String)
      (transport : String → TransportOutcome),
      (apiKey.falsy = true ∧ (env = none ∨ env = some "")) ∨ apiKey = APIKeyArg.nonString →
      finance_client_init tickers apiKey env transport =
        (.error (.financeClientInvalidAPIKey "TimeSeriesFinanceClient operation failed"), []) ∧
      ts_client_init tickers apiKey env transport =
        (.error (.financeClientInvalidAPIKey "TimeSeriesFinanceClient operation failed"), []) := by
  intro tickers apiKey env transport h
  have hres : resolve_api_key apiKey env =
      .error (.financeClientInvalidAPIKey "TimeSeriesFinanceClient operation failed") := by
    rcases h with ⟨hf, henv⟩ | h
    · rcases henv with h2 | h2 <;> subst h2 <;> simp [resolve_api_key, hf]
    · subst h
      rfl
  constructor
  · unfold finance_client_init
    rw [hres]
  · unfold ts_client_init finance_client_init
    rw [hres]

/-- C8 (witness): concrete instances of all three unusable-key shapes. -/
theorem C8_invalid_api_key_witness :
    ts_client_init ["IBM"] APIKeyArg.noKey none (fun _ => .responds 200 (some exampleBody)) =
      (.error (.financeClientInvalidAPIKey "TimeSeriesFinanceClient operation failed"), []) ∧
    ts_client_init ["IBM"] (.str "") (some "") (fun _ => .responds 200 (some exampleBody)) =
      (.error (.financeClientInvalidAPIKey "TimeSeriesFinanceClient operation failed"), []) ∧
    ts_client_init ["IBM"] APIKeyArg.nonString none (fun _ => .responds 200 (some exampleBody)) =
      (.error (.financeClientInvalidAPIKey "TimeSeriesFinanceClient operation failed"), []) :=
  ⟨(C8_invalid_api_key_before_network ["IBM"] APIKeyArg.noKey none _
      (Or.inl ⟨rfl, Or.inl rfl⟩)).2,
   (C8_invalid_api_key_before_network ["IBM"] (.str "") (some "") _
      (Or.inl ⟨by decide, Or.inr rfl⟩)).2,
   (C8_invalid_api_key_before_network ["IBM"] APIKeyArg.nonString none _
      (Or.inr rfl)).2⟩

/-- C9 (counterexample): a zero-ticker client is successfully constructed,
and on it `to_csv` does not write the first table — there is none — but
raises an uncaught `IndexError` at `self._data_frame[0]`. -/
theorem C9_ctrex_empty_client_index_error :
    ts_client_init [] (.str "nokey") none (fun _ => TransportOutcome.raises) =
      (.ok ⟨⟨[], "nokey", [], []⟩, []⟩, []) ∧
    to_csv [] "test.csv" = .error PyErr.indexError :=
  ⟨rfl, rfl⟩

/-- C9 (amended): on every client with at least one table, `to_csv` writes
exactly the first table of the list, and the written content is unchanged
when every other table is replaced arbitrarily. -/
theorem C9_to_csv_writes_first_table_only :
    ∀ (f : ParsedFrame) (rest rest2 : List ParsedFrame) (path : String),
      to_csv (f :: rest) path = .ok (path, render_csv f) ∧
      to_csv (f :: rest) path = to_csv (f :: rest2) path :=
  fun _ _ _ _ => ⟨rfl, rfl⟩

/-- C10: constructing a client from the empty ticker list succeeds for any
non-empty string key without touching the transport (the URL trace is
empty), and on the resulting client every query method returns the empty
list; in particular the range-checked queries return `[]` for arbitrary
bounds — including inverted ones — without `FinanceClientParamError`,
because the check sits inside the per-table loop. -/
theorem C10_empty_ticker_list_client :
    ∀ (s : String) (env : Option String) (transport : String → TransportOutcome),
      s ≠ "" →
      ∃ st : ClientState,
        ts_client_init [] (.str s) env transport = (.ok st, []) ∧
        st.dataFrames = [] ∧
        to_pandas st = [] ∧
        (∀ fdO tdO, daily_price st.dataFrames fdO tdO = .ok [] ∧
          daily_volume st.dataFrames fdO tdO = .ok []) ∧
        (∀ fyO tyO, yearly_dividends st.dataFrames fyO tyO = .ok [] ∧
          yearly_dividends_per_quarter st.dataFrames fyO tyO = .ok []) ∧
        highest_daily_variation st.dataFrames = .ok [] := by
  intro s env transport hs
  have hf : (APIKeyArg.str s).falsy = false := by
    simp [APIKeyArg.falsy, hs]
  refine ⟨⟨⟨[], s, [], []⟩, []⟩, ?_, rfl, rfl, fun _ _ => ⟨rfl, rfl⟩, fun _ _ => ⟨rfl, rfl⟩, rfl⟩
  unfold ts_client_init finance_client_init resolve_api_key
  rw [hf]
  simp only [Bool.false_eq_true, if_false]
  rw [if_neg hs]
  rfl

/-- C10 (witness): the concrete empty-ticker client with inverted bounds. -/
theorem C10_empty_ticker_list_witness :
    ∃ st : ClientState,
      ts_client_init [] (.str "nokey") none (fun _ => TransportOutcome.raises) = (.ok st, []) ∧
      daily_price st.dataFrames (some ⟨2021, 1, 1⟩) (some ⟨2020, 2, 28⟩) = .ok [] ∧
      yearly_dividends st.dataFrames (some 2021) (some 2020) = .ok [] := by
  obtain ⟨st, h1, _, _, h4, h5, _⟩ :=
    C10_empty_ticker_list_client "nokey" none (fun _ => TransportOutcome.raises) (by decide)
  exact ⟨st, h1, (h4 (some ⟨2021, 1, 1⟩) (some ⟨2020, 2, 28⟩)).1, (h5 (some 2021) (some 2020)).1⟩

/-- C4 (counterexample): a transport-level exception does not surface as
`FinanceClientAPIError` — the handler's f-string reads the unbound local
`response` and the construction dies with `UnboundLocalError` (a
`NameError`); likewise an unparsable body surfaces as
`FinanceClientInvalidData` from `_process_query_response`, not as the
claimed APIError condition. -/
theorem C4_ctrex_transport_exception_not_api_error :
    query_api (fun _ => TransportOutcome.raises) "u" = .error PyErr.nameError ∧
    PyErr.nameError.isAPIError = false ∧
    process_query_response none = .error (.financeClientInvalidData "Invalid data") ∧
    (PyErr.financeClientInvalidData "Invalid data").isAPIError = false :=
  ⟨rfl, rfl, rfl, rfl⟩

/-- C4 (amended): for the first ticker queried during construction, a
non-200 response status makes construction fail with
`FinanceClientAPIError` whose message reports the failing URL and status; a
transport-level exception instead aborts construction with the handler's
own `NameError` (`response` is unbound there); and an unparsable response
body aborts it with `FinanceClientInvalidData`. -/
theorem C4_api_error_reporting :
    ∀ (t : String) (ts : List String) (apiKey : APIKeyArg) (env : Option String)
      (transport : String → TransportOutcome) (key : String),
      resolve_api_key apiKey env = .ok key →
      ((transport (build_base_query_url ++ build_base_query_url_params t key) =
          TransportOutcome.raises →
        ts_client_init (t :: ts) apiKey env transport =
          (.error PyErr.nameError,
           [build_base_query_url ++ build_base_query_url_params t key])) ∧
       (∀ (status : Nat) (body : Option Json),
        transport (build_base_query_url ++ build_base_query_url_params t key) =
          TransportOutcome.responds status body →
        status ≠ 200 →
        ts_client_init (t :: ts) apiKey env transport =
          (.error (.financeClientAPIError
             ("Unsuccessful API access [URL: " ++
               (build_base_query_url ++ build_base_query_url_params t key) ++
               ", status: " ++ toString status ++ "]")),
           [build_base_query_url ++ build_base_query_url_params t key])) ∧
       (transport (build_base_query_url ++ build_base_query_url_params t key) =
          TransportOutcome.responds 200 none →
        ts_client_init (t :: ts) apiKey env transport =
          (.error (.financeClientInvalidData "Invalid data"),
           [build_base_query_url ++ build_base_query_url_params t key]))) := by
  intro t ts apiKey env transport key hres
  refine ⟨?_, ?_, ?_⟩
  · intro htr
    simp [ts_client_init, finance_client_init, hres, query_loop, query_api, htr]
  · intro status body htr hst
    simp [ts_client_init, finance_client_init, hres, query_loop, query_api, htr, hst]
  · intro htr
    simp [ts_client_init, finance_client_init, hres, query_loop, query_api, htr,
      process_query_response]

/-- C4 (witness): the three transport behaviours at a concrete client. -/
theorem C4_api_error_reporting_witness :
    ts_client_init ["IBM"] (.str "k") none (fun _ => TransportOutcome.raises) =
      (.error PyErr.nameError,
       [build_base_query_url ++ build_base_query_url_params "IBM" "k"]) ∧
    ts_client_init ["IBM"] (.str "k") none (fun _ => TransportOutcome.responds 404 none) =
      (.error (.financeClientAPIError
         ("Unsuccessful API access [URL: " ++
           (build_base_query_url ++ build_base_query_url_params "IBM" "k") ++
           ", status: " ++ toString 404 ++ "]")),
       [build_base_query_url ++ build_base_query_url_params "IBM" "k"]) ∧
    ts_client_init ["IBM"] (.str "k") none (fun _ => TransportOutcome.responds 200 none) =
      (.error (.financeClientInvalidData "Invalid data"),
       [build_base_query_url ++ build_base_query_url_params "IBM" "k"]) :=
  ⟨(C4_api_error_reporting "IBM" [] (.str "k") none _ "k" rfl).1 rfl,
   (C4_api_error_reporting "IBM" [] (.str "k") none _ "k" rfl).2.1 404 none rfl (by decide),
   (C4_api_error_reporting "IBM" [] (.str "k") none _ "k" rfl).2.2 rfl⟩

theorem catchTypeError_ok {α : Type} {msg : String} {r : Except PyErr α} {v : α}
    (h : catchTypeError msg r = .ok v) : r = .ok v := by
  cases r with
  | ok w => exact h
  | error e => cases e <;> simp [catchTypeError] at h

theorem mapE_ok_length {α β : Type} {f : α → Except PyErr β} :
    ∀ {l : List α} {ys : List β}, mapE f l = .ok ys → ys.length = l.length
  | [], ys, h => by
    injection h with h2
    rw [← h2]
    rfl
  | a :: rest, ys, h => by
    unfold mapE at h
    cases hf : f a with
    | error e => rw [hf] at h; cases h
    | ok b =>
      rw [hf] at h
      cases hm : mapE f rest with
      | error e => rw [hm] at h; cases h
      | ok bs =>
        rw [hm] at h
        injection h with h2
        rw [← h2]
        simp [mapE_ok_length hm]

theorem from_dict_ok {b : SeriesBlock} {df : RawFrame}
    (h : from_dict_orient_index_float b = .ok df) :
    df.index = b.map Prod.fst ∧ df.rows.length = b.length := by
  unfold from_dict_orient_index_float at h
  cases hm : mapE (fun r => rowCells (blockColNames b) r.2) b with
  | error e => rw [hm] at h; cases h
  | ok rows =>
    rw [hm] at h
    injection h with h2
    rw [← h2]
    exact ⟨rfl, mapE_ok_length hm⟩

theorem astypeCol_ok {name ty : String} {df df2 : RawFrame}
    (h : astypeCol name ty df = .ok df2) :
    df2.index = df.index ∧ df2.rows.length = df.rows.length := by
  unfold astypeCol at h
  split at h
  · cases h
  · split at h
    · cases h
    · next rows2 hm =>
      injection h with h2
      rw [← h2]
      exact ⟨rfl, mapE_ok_length hm⟩

theorem astypeMap_ok : ∀ {m : List (String × String × String)} {df df2 : RawFrame},
    astypeMap m df = .ok df2 → df2.index = df.index ∧ df2.rows.length = df.rows.length
  | [], df, df2, h => by
    injection h with h2
    rw [← h2]
    exact ⟨rfl, rfl⟩
  | (k, name, ty) :: rest, df, df2, h => by
    unfold astypeMap at h
    cases hc : astypeCol name ty df with
    | error e => rw [hc] at h; cases h
    | ok dfm =>
      rw [hc] at h
      obtain ⟨h1, h2⟩ := astypeCol_ok hc
      obtain ⟨h3, h4⟩ := astypeMap_ok h
      exact ⟨h3.trans h1, h4.trans h2⟩

theorem parseIndex_forall2 : ∀ {ss : List String} {ds : List Date},
    parseIndex ss = .ok ds → List.Forall₂ (fun s d => parseDate s = some d) ss ds
  | [], ds, h => by
    injection h with h2
    rw [← h2]
    exact List.Forall₂.nil
  | s :: rest, ds, h => by
    unfold parseIndex at h
    cases hp : parseDate s with
    | none => rw [hp] at h; cases h
    | some d =>
      rw [hp] at h
      cases hr : parseIndex rest with
      | error e => rw [hr] at h; cases h
      | ok ds2 =>
        rw [hr] at h
        injection h with h2
        rw [← h2]
        exact List.Forall₂.cons hp (parseIndex_forall2 hr)

theorem forall2_mem_right {α β : Type} {R : α → β → Prop} {l1 : List α} {l2 : List β}
    (h : List.Forall₂ R l1 l2) : ∀ {b : β}, b ∈ l2 → ∃ a ∈ l1, R a b := by
  induction h with
  | nil => intro b hb; cases hb
  | cons hR _ ih =>
    intro b hb
    rcases List.mem_cons.mp hb with h1 | h2
    · exact ⟨_, List.mem_cons_self _ _, h1 ▸ hR⟩
    · obtain ⟨a, ha, hr⟩ := ih h2
      exact ⟨a, List.mem_cons_of_mem _ ha, hr⟩

theorem parseDateChars_bounds {y1 y2 y3 y4 h1 m1 m2 h2 d1 d2 : Char} {d : Date}
    (h : parseDateChars y1 y2 y3 y4 h1 m1 m2 h2 d1 d2 = some d) :
    d.month ≤ 12 ∧ d.day ≤ 31 := by
  unfold parseDateChars at h
  split at h
  case isTrue hc =>
    split at h
    case isTrue hb =>
      injection h with h2
      rw [← h2]
      exact ⟨hb.2.1, hb.2.2.2⟩
    case isFalse hb => cases h
  case isFalse hc => cases h

theorem parseDate_bounds {s : String} {d : Date} (h : parseDate s = some d) :
    d.month ≤ 12 ∧ d.day ≤ 31 := by
  unfold parseDate at h
  split at h
  · exact parseDateChars_bounds h
  · cases h

theorem Date.key_inj {a b : Date} (ha : a.month ≤ 12 ∧ a.day ≤ 31)
    (hb : b.month ≤ 12 ∧ b.day ≤ 31) (h : a.key = b.key) : a = b := by
  obtain ⟨ha1, ha2⟩ := ha
  obtain ⟨hb1, hb2⟩ := hb
  cases a with
  | mk ay am ad =>
    cases b with
    | mk cy cm cd =>
      simp only [Date.key] at h ha1 ha2 hb1 hb2
      simp only [Date.mk.injEq]
      omega

theorem canonical_parse_inj {s1 s2 : String}
    (h1 : canonicalDateString s1 = true) (h2 : canonicalDateString s2 = true)
    (h : parseDate s1 = parseDate s2) : s1 = s2 := by
  cases hp1 : parseDate s1 with
  | none => simp [canonicalDateString, hp1] at h1
  | some d1 =>
    cases hp2 : parseDate s2 with
    | none => simp [canonicalDateString, hp2] at h2
    | some d2 =>
      simp [canonicalDateString, hp1] at h1
      simp [canonicalDateString, hp2] at h2
      rw [hp1, hp2] at h
      injection h with hd
      rw [← h1, ← h2, hd]

theorem parseIndex_pairwise_key_ne : ∀ {ss : List String} {ds : List Date},
    parseIndex ss = .ok ds → ss.Nodup →
    (∀ s ∈ ss, canonicalDateString s = true) →
    ds.Pairwise (fun a b => a.key ≠ b.key)
  | [], ds, h, _, _ => by
    injection h with h2
    rw [← h2]
    exact List.Pairwise.nil
  | s :: rest, ds, h, hnd, hcan => by
    unfold parseIndex at h
    cases hp : parseDate s with
    | none => rw [hp] at h; cases h
    | some d =>
      rw [hp] at h
      cases hr : parseIndex rest with
      | error e => rw [hr] at h; cases h
      | ok ds2 =>
        rw [hr] at h
        injection h with h2
        rw [← h2]
        have hnd2 := List.nodup_cons.mp hnd
        refine List.Pairwise.cons ?_
          (parseIndex_pairwise_key_ne hr hnd2.2
            (fun x hx => hcan x (List.mem_cons_of_mem _ hx)))
        intro d2 hd2 hkey
        obtain ⟨s2, hs2, hp2⟩ := forall2_mem_right (parseIndex_forall2 hr) hd2
        have hdd : d = d2 := Date.key_inj (parseDate_bounds hp) (parseDate_bounds hp2) hkey
        have hss : s = s2 := canonical_parse_inj (hcan s (List.mem_cons_self _ _))
          (hcan s2 (List.mem_cons_of_mem _ hs2)) (by rw [hp, hp2, hdd])
        exact hnd2.1 (hss ▸ hs2)

theorem build_one_sorted {b : SeriesBlock} {fr : ParsedFrame}
    (hwf : wellFormedBlock b) (hok : build_one_data_frame b = .ok fr) :
    fr.rows.Pairwise (fun u v => u.1.key < v.1.key) := by
  unfold build_one_data_frame at hok
  split at hok
  · cases hok
  · next df0 h0 =>
    obtain ⟨hidx0, hlen0⟩ := from_dict_ok (catchTypeError_ok h0)
    dsimp only at hok
    split at hok
    · cases hok
    · next df2 h2 =>
      obtain ⟨hidx2, hlen2⟩ := astypeMap_ok (catchTypeError_ok h2)
      have hidx : df2.index = b.map Prod.fst := by
        rw [hidx2]
        exact hidx0
      have hlenr : df2.rows.length = b.length := by
        rw [hlen2]
        exact hlen0
      split at hok
      · cases hok
      · next dates h3 =>
        injection hok with h4
        rw [← h4]
        have hforall := parseIndex_forall2 h3
        have hlen : dates.length ≤ df2.rows.length := by
          rw [hlenr, ← List.Forall₂.length_eq hforall, hidx]
          simp
        have hkeysne : dates.Pairwise (fun a b => a.key ≠ b.key) := by
          apply parseIndex_pairwise_key_ne h3
          · rw [hidx]
            exact hwf.1
          · rw [hidx]
            exact hwf.2
        have hfst : (dates.zip df2.rows).map Prod.fst = dates := List.map_fst_zip _ _ hlen
        have h5 : ((dates.zip df2.rows).map Prod.fst).Pairwise (fun a b => a.key ≠ b.key) := by
          rw [hfst]
          exact hkeysne
        have hzipne := List.pairwise_map.mp h5
        have hperm := List.perm_insertionSort
          (leOn (fun r : Date × List Cell => r.1.key)) (dates.zip df2.rows)
        have hsortne := (hperm.pairwise_iff (fun hne he => hne he.symm)).mpr hzipne
        have hsorted := List.sorted_insertionSort
          (leOn (fun r : Date × List Cell => r.1.key)) (dates.zip df2.rows)
        exact (hsorted.and hsortne).imp (fun h => Nat.lt_of_le_of_ne h.1 h.2)

theorem build_data_frame_mem : ∀ {bs : List SeriesBlock} {fs : List ParsedFrame},
    build_data_frame bs = .ok fs → ∀ {fr : ParsedFrame}, fr ∈ fs →
    ∃ b ∈ bs, build_one_data_frame b = .ok fr
  | [], fs, h, fr, hm => by
    injection h with h2
    rw [← h2] at hm
    cases hm
  | b :: bs2, fs, h, fr, hm => by
    unfold build_data_frame at h
    cases h1 : build_one_data_frame b with
    | error e => rw [h1] at h; cases h
    | ok f =>
      rw [h1] at h
      cases h2 : build_data_frame bs2 with
      | error e => rw [h2] at h; cases h
      | ok fs2 =>
        rw [h2] at h
        injection h with h3
        rw [← h3] at hm
        rcases List.mem_cons.mp hm with hf | hf
        · refine ⟨b, List.mem_cons_self _ _, ?_⟩
          rw [h1, hf]
        · obtain ⟨b2, hb2, hokk⟩ := build_data_frame_mem h2 hf
          exact ⟨b2, List.mem_cons_of_mem _ hb2, hokk⟩

theorem ts_client_init_ok {tickers : List String} {apiKey : APIKeyArg} {env : Option String}
    {transport : String → TransportOutcome} {st : ClientState} {urls : List String}
    (h : ts_client_init tickers apiKey env transport = (.ok st, urls)) :
    build_data_frame st.base.jsonData = .ok st.dataFrames := by
  unfold ts_client_init at h
  split at h
  · simp at h
  · next b urls2 hfc =>
    split at h
    · simp at h
    · next frames hbd =>
      simp only [Prod.mk.injEq] at h
      obtain ⟨h1, _⟩ := h
      injection h1 with h1
      rw [← h1]
      exact hbd

/-- C6: for every successfully constructed client all of whose stored data
blocks are well-formed (canonical, pairwise-distinct date-string keys),
every table of the client has a strictly ascending date index with no
duplicate dates. -/
theorem C6_index_strictly_ascending :
    ∀ (tickers : List String) (apiKey : APIKeyArg) (env : Option String)
      (transport : String → TransportOutcome) (st : ClientState) (urls : List String),
      ts_client_init tickers apiKey env transport = (.ok st, urls) →
      (∀ b ∈ st.base.jsonData, wellFormedBlock b) →
      ∀ fr ∈ st.dataFrames,
        fr.rows.Pairwise (fun u v => u.1.key < v.1.key) ∧
        (fr.rows.map Prod.fst).Nodup := by
  intro tickers apiKey env transport st urls hinit hwf fr hfr
  obtain ⟨b, hb, hok⟩ := build_data_frame_mem (ts_client_init_ok hinit) hfr
  have hlt := build_one_sorted (hwf b hb) hok
  refine ⟨hlt, ?_⟩
  have hne : fr.rows.Pairwise (fun u v => u.1 ≠ v.1) :=
    hlt.imp (fun h he => absurd (he ▸ h) (lt_irrefl _))
  exact List.pairwise_map.mpr hne

/-- C6 (witness): the invariant evaluated on a concrete two-day client. -/
theorem C6_index_witness :
    exampleFullFrame.rows.Pairwise (fun u v => u.1.key < v.1.key) ∧
    (exampleFullFrame.rows.map Prod.fst).Nodup := by
  have h := C6_index_strictly_ascending ["IBM"] (.str "k") none
    (fun _ => .responds 200 (some exampleBody))
    ⟨⟨["IBM"], "k", [[("2. Symbol", "IBM")]], [exampleBlock]⟩, [exampleFullFrame]⟩
    [build_base_query_url ++ build_base_query_url_params "IBM" "k"] rfl (by decide)
  exact h exampleFullFrame (List.mem_singleton_self _)

